import Mathlib

/-!
Shallow embedding of the paperpal paper-search tool server.

The embedding mirrors the Python sources file by file:
* `src/paperpal/utils.py`         — `create_author_short`
* `src/paperpal/arxiv.py`         — `ArxivPaper` (pydantic model with after-validators),
                                    Atom entry parsing, `search_arxiv`
* `src/paperpal/huggingface.py`   — `HuggingFacePaper`, `parse_authors`, `parse_paper`,
                                    `semantic_search_huggingface_papers`
* `src/paperpal/s2.py`            — `SemanticScholarPaper`, `parse_semantic_scholar_paper`,
                                    `search_semantic_scholar`
* `src/paperpal/bibtex.py`        — `fetch_bibtex`, `fetch_bibtex_batch`, `add_bibtex_to_papers`
* `src/paperpal.py`               — `get_arxiv_info_async`, `get_arxiv_info_for_papers_async`
* `src/paperpal/mcp_server.py`    — `stringify_papers`, tool wrappers

Modelling conventions:
* Python exceptions are modelled with `Except PyError`; a function that Python
  lets raise returns `Except PyError α`, and a `try/except` block is a `match`
  on the body's result with the handler expressions in the error arms.
* The network is modelled by a `FetchOutcome` value (the HTTP call either
  raises a transport error or yields a status code and a parsed body); an
  oracle function `net : String → FetchOutcome String` gives the per-identifier
  outcome of the BibTeX / abstract fetches.
* pydantic construction of a model is a function from the keyword-argument
  record to `Except PyError model`: field `default`s fill missing kwargs,
  missing required fields give a ValidationError, and the `mode="after"`
  model validators run in declaration order on the constructed value
  (a `TypeError` raised inside an after-validator propagates in pydantic v2).
* Python truthiness of `str` / `Optional[str]` values (`if paper.arxiv_id:`)
  is `pyTruthyStr` / `pyTruthyStrOpt`; f-string rendering of an optional
  field is `pyStr` (`None` prints as "None").
-/

namespace Paperpal

/-- Python truthiness of a `str`: the empty string is falsy. -/
def pyTruthyStr (s : String) : Bool :=
  !(s == "")

/-- Python truthiness of an `Optional[str]`: `None` and `""` are falsy. -/
def pyTruthyStrOpt : Option String → Bool
  | none => false
  | some s => pyTruthyStr s

/-- f-string rendering of an `Optional[str]` value: `None` prints as "None". -/
def pyStr : Option String → String
  | none => "None"
  | some s => s

/-- f-string rendering of an `Optional[list[str]]` value: Python prints the
list repr, each element with single quotes (quote-escaping inside names is
not modelled; no claim depends on it). -/
def pyReprStrList : Option (List String) → String
  | none => "None"
  | some xs => "[" ++ String.intercalate ", " (xs.map (fun s => "\x27" ++ s ++ "\x27")) ++ "]"

/-- The Python exceptions the embedded code can raise. -/
inductive PyError where
  | typeError (msg : String)
  | validationError (msg : String)
  | httpError (msg : String)
  | xmlParseError (msg : String)
  | attributeError (msg : String)
  | otherError (msg : String)
deriving DecidableEq

/-- `str(e)` of a caught exception, as interpolated into error messages. -/
def pyErrMsg : PyError → String
  | .typeError m => m
  | .validationError m => m
  | .httpError m => m
  | .xmlParseError m => m
  | .attributeError m => m
  | .otherError m => m

/-- Outcome of one outbound HTTP call: either the transport raised
(connection error, timeout — httpx transport errors are `httpx.HTTPError`
subclasses), or a response with a status code and an already-decoded body. -/
inductive FetchOutcome (β : Type) where
  | raised (msg : String)
  | response (status : Nat) (body : β)
deriving DecidableEq

/-- `response.is_success`: status in the 2xx range. -/
def is2xx (status : Nat) : Bool :=
  200 ≤ status && status < 300

/-- `str(e)` of the `httpx.HTTPStatusError` raised by `raise_for_status`. -/
def httpStatusErrorMsg (status : Nat) : String :=
  "HTTP status error " ++ toString status

/-- `utils.create_author_short` (src/paperpal/utils.py). -/
def create_author_short (authors : List String) : String :=
  if authors.length == 0 then ""
  else if authors.length == 1 then authors.headD ""
  else authors.headD "" ++ " et al."

/-- `ArxivPaper` (src/paperpal/arxiv.py): every field is `Optional` with
default `None`.  The same record type doubles as the keyword-argument record
passed to the constructor (pydantic fills unsupplied kwargs with the field
defaults before the after-validators run). -/
structure ArxivPaper where
  title : Option String := none
  summary : Option String := none
  authors : Option (List String) := none
  categories : Option (List String) := none
  arxiv_id : Option String := none
  pdf_url : Option String := none
  error_message : Option String := none
  bibtex : Option String := none
  arxiv_url : Option String := none
  author_short : Option String := none
deriving DecidableEq

/-- pydantic construction of `ArxivPaper`: run the two `mode="after"`
validators in declaration order.  `create_url` always succeeds (an f-string
renders `None` as "None"); `set_author_short` calls
`create_author_short(self.authors)`, and when `authors` is `None` the
`len(authors)` inside it raises a `TypeError`, which pydantic v2 propagates. -/
def ArxivPaper.construct (kw : ArxivPaper) : Except PyError ArxivPaper :=
  let p1 := { kw with arxiv_url := some ("https://arxiv.org/abs/" ++ pyStr kw.arxiv_id) }
  match p1.authors with
  | none => .error (.typeError "object of type NoneType has no len")
  | some authors => .ok { p1 with author_short := some (create_author_short authors) }

/-- `ArxivPaper.__str__`. -/
def ArxivPaper.str (p : ArxivPaper) : String :=
  if pyTruthyStrOpt p.error_message then
    "Error: " ++ pyStr p.error_message
  else
    "Title: " ++ pyStr p.title ++ "\nAuthors: " ++ pyStr p.author_short ++
      "\nPaper ID: " ++ pyStr p.arxiv_id ++ "\nURL: " ++ pyStr p.arxiv_url ++
      "\nCitation: " ++ pyStr p.bibtex

/-- `HuggingFacePaper` (src/paperpal/huggingface.py): `title`, `summary`,
`authors`, `arxiv_id` and `upvotes` are required fields; the rest default to
`None` (the `arxiv_url: str = None` default is accepted because pydantic does
not validate defaults). -/
structure HuggingFacePaper where
  title : String
  summary : String
  authors : List String
  arxiv_id : String
  upvotes : Int
  arxiv_url : Option String := none
  bibtex : Option String := none
  error_message : Option String := none
  author_short : Option String := none
deriving DecidableEq

/-- The keyword arguments of a `HuggingFacePaper(...)` call. -/
structure HFKwargs where
  title : Option String := none
  summary : Option String := none
  authors : Option (List String) := none
  arxiv_id : Option String := none
  upvotes : Option Int := none
  arxiv_url : Option String := none
  bibtex : Option String := none
  error_message : Option String := none
  author_short : Option String := none
deriving DecidableEq

/-- pydantic construction of `HuggingFacePaper`: a missing required field
raises a `ValidationError`; otherwise the two after-validators run (here
`authors` is a genuine list, so `set_author_short` cannot fail). -/
def HuggingFacePaper.construct (kw : HFKwargs) : Except PyError HuggingFacePaper :=
  match kw.title, kw.summary, kw.authors, kw.arxiv_id, kw.upvotes with
  | some title, some summary, some authors, some arxiv_id, some upvotes =>
    .ok { title, summary, authors, arxiv_id, upvotes,
          arxiv_url := some ("https://arxiv.org/abs/" ++ arxiv_id),
          bibtex := kw.bibtex,
          error_message := kw.error_message,
          author_short := some (create_author_short authors) }
  | _, _, _, _, _ => .error (.validationError "missing required fields")

/-- `HuggingFacePaper.__str__`: note the source has no branch on
`error_message` — it always renders the content fields. -/
def HuggingFacePaper.str (p : HuggingFacePaper) : String :=
  "Title: " ++ p.title ++ "\nSummary: " ++ p.summary ++ "\nID: " ++ p.arxiv_id ++
    "\nUpvotes: " ++ toString p.upvotes ++ "\nURL: " ++ pyStr p.arxiv_url

/-- One item of the Semantic Scholar search response, as decoded JSON
(src/paperpal/s2.py).  `authors` holds each author dict's optional `name`
field; `tldr` / `citationStyles` are `none` when the key is absent or its
value falsy (e.g. `None` or an empty dict), `some t` when a nested dict is
present with optional `text` / `bibtex` field `t`. -/
structure S2Entry where
  title : Option String := none
  abstract : Option String := none
  authors : List (Option String) := []
  paperId : Option String := none
  url : Option String := none
  tldr : Option (Option String) := none
  citationStyles : Option (Option String) := none
deriving DecidableEq

/-- `SemanticScholarPaper` (src/paperpal/s2.py): plain pydantic model, every
field optional, no validators. -/
structure SemanticScholarPaper where
  title : Option String := none
  abstract : Option String := none
  authors : Option (List String) := none
  paper_id : Option String := none
  url : Option String := none
  tldr : Option String := none
  citation : Option String := none
  raw_info : Option S2Entry := none
  error_message : Option String := none
deriving DecidableEq

/-- `SemanticScholarPaper.__str__`. -/
def SemanticScholarPaper.str (p : SemanticScholarPaper) : String :=
  if pyTruthyStrOpt p.error_message then
    "Error: " ++ pyStr p.error_message
  else
    "Title: " ++ pyStr p.title ++ "\nAbstract: " ++ pyStr p.abstract ++
      "\nAuthors: " ++ pyReprStrList p.authors ++ "\nPaper ID: " ++ pyStr p.paper_id ++
      "\nURL: " ++ pyStr p.url ++ "\nTLDR: " ++ pyStr p.tldr ++
      "\nCitation: " ++ pyStr p.citation

/-- `tldr_text` extraction in `parse_semantic_scholar_paper`:
`if data.get("tldr") and data["tldr"].get("text")`. -/
def extract_tldr (e : S2Entry) : Option String :=
  match e.tldr with
  | some (some t) => if pyTruthyStr t then some t else none
  | _ => none

/-- `citation` extraction in `parse_semantic_scholar_paper`:
`if data.get("citationStyles") and data["citationStyles"].get("bibtex")`. -/
def extract_citation (e : S2Entry) : Option String :=
  match e.citationStyles with
  | some (some t) => if pyTruthyStr t then some t else none
  | _ => none

/-- `parse_semantic_scholar_paper` (src/paperpal/s2.py).  The body is total
(every access uses `.get` with a default), so the surrounding `try/except`
never fires; `raw_info` stores the original response item. -/
def parse_semantic_scholar_paper (data : S2Entry) : SemanticScholarPaper :=
  { title := data.title,
    abstract := data.abstract,
    authors := some (data.authors.map (fun a => a.getD "")),
    paper_id := data.paperId,
    url := data.url,
    tldr := extract_tldr data,
    citation := extract_citation data,
    raw_info := some data,
    error_message := none }

/-- The batch loop `for i in range(0, len(xs), batch_size): batch = xs[i:i+batch_size]`
shared by `fetch_bibtex_batch` (src/paperpal/bibtex.py) and
`get_arxiv_info_for_papers_async` (src/paperpal.py): the list of consecutive
chunks of at most `batch_size` elements.  Python's `range` raises `ValueError`
for step 0, so the model is only meaningful for `0 < batch_size`, which every
theorem below assumes (the callers use the default 5). -/
def batchLoop (batch_size : Nat) : List α → List (List α)
  | [] => []
  | x :: rest =>
    if batch_size = 0 then []
    else (x :: rest).take batch_size :: batchLoop batch_size ((x :: rest).drop batch_size)
termination_by xs => xs.length
decreasing_by
  simp only [List.length_drop, List.length_cons]
  omega

/-- Python `dict.update` with a list of key/value pairs (later pairs
overwrite earlier ones), on a dictionary modelled as a lookup function. -/
def dictUpdate (d : String → Option String) (kvs : List (String × String)) :
    String → Option String :=
  kvs.foldl (fun acc kv => fun k => if k = kv.1 then some kv.2 else acc k) d

/-- `fetch_bibtex` (src/paperpal/bibtex.py) given the outcome of its one HTTP
GET: the body on status 200, the empty string on any other status, and the
empty string when the request raised (the function catches every exception). -/
def fetch_bibtex (outcome : FetchOutcome String) : String :=
  match outcome with
  | .raised _ => ""
  | .response status body => if status == 200 then body else ""

/-- The citation text `fetch_bibtex` produces for one identifier, given the
network oracle `net`. -/
def bibtexResult (net : String → FetchOutcome String) (arxiv_id : String) : String :=
  fetch_bibtex (net arxiv_id)

/-- `fetch_bibtex_batch` (src/paperpal/bibtex.py): process the identifiers in
batches; per batch, `asyncio.gather` returns the per-task results in task
order, and `results.update(dict(zip(batch_arxiv_ids, batch_results)))` merges
them into the accumulated dictionary. -/
def fetch_bibtex_batch (net : String → FetchOutcome String) (arxiv_ids : List String)
    (batch_size : Nat) : String → Option String :=
  (batchLoop batch_size arxiv_ids).foldl
    (fun results batch => dictUpdate results (batch.zip (batch.map (bibtexResult net))))
    (fun _ => none)

/-- The duck-typed attribute accesses `add_bibtex_to_papers` makes on its
`List[Any]` argument: in the repository it is applied to both `ArxivPaper`
and `HuggingFacePaper` lists. -/
structure BibtexFields (α : Type) where
  arxiv_id : α → Option String
  bibtex : α → Option String
  setBibtex : α → Option String → α

/-- `arxiv_ids = [paper.arxiv_id for paper in papers if paper.arxiv_id and not paper.bibtex]`
(src/paperpal/bibtex.py line 91): the identifiers that will be fetched.
Every element passing the filter has a truthy (hence `some`) identifier, so
`filterMap` extracts exactly the Python list of strings. -/
def ids_to_fetch (fl : BibtexFields α) (papers : List α) : List String :=
  (papers.filter (fun p => pyTruthyStrOpt (fl.arxiv_id p) && !pyTruthyStrOpt (fl.bibtex p))).filterMap
    fl.arxiv_id

/-- `add_bibtex_to_papers` (src/paperpal/bibtex.py).  The in-place mutation
`paper.bibtex = bibtex_dict[paper.arxiv_id]` is modelled by returning the
updated list; the guard is
`if paper.arxiv_id in bibtex_dict and not paper.bibtex` (a `None` identifier
is never a dictionary key, since all keys are strings). -/
def add_bibtex_to_papers (fl : BibtexFields α) (net : String → FetchOutcome String)
    (papers : List α) (batch_size : Nat) : List α :=
  let arxiv_ids := ids_to_fetch fl papers
  if arxiv_ids.isEmpty then papers
  else
    let bibtex_dict := fetch_bibtex_batch net arxiv_ids batch_size
    papers.map (fun paper =>
      match fl.arxiv_id paper with
      | none => paper
      | some aid =>
        match bibtex_dict aid with
        | none => paper
        | some v =>
          if !pyTruthyStrOpt (fl.bibtex paper) then fl.setBibtex paper (some v) else paper)

/-- The per-record effect of enrichment: attach `fetch_bibtex`'s text for the
record's own identifier exactly when the identifier is truthy and the
citation is not; a pure function of the single record and the oracle. -/
def enrichOne (fl : BibtexFields α) (net : String → FetchOutcome String) (paper : α) : α :=
  match fl.arxiv_id paper with
  | none => paper
  | some aid =>
    if pyTruthyStr aid && !pyTruthyStrOpt (fl.bibtex paper) then
      fl.setBibtex paper (some (bibtexResult net aid))
    else paper

/-- The `BibtexFields` instance for `ArxivPaper` (field `arxiv_id` is already
`Optional[str]`). -/
def arxivBibtexFields : BibtexFields ArxivPaper :=
  { arxiv_id := fun p => p.arxiv_id,
    bibtex := fun p => p.bibtex,
    setBibtex := fun p v => { p with bibtex := v } }

/-- The `BibtexFields` instance for `HuggingFacePaper` (field `arxiv_id` is a
required `str`; Python truthiness still rejects the empty string). -/
def hfBibtexFields : BibtexFields HuggingFacePaper :=
  { arxiv_id := fun p => some p.arxiv_id,
    bibtex := fun p => p.bibtex,
    setBibtex := fun p v => { p with bibtex := v } }

/-- `get_arxiv_info_async` (src/paperpal.py) given the outcome of its HTTP
GET: the body text on success, an inline error string otherwise (the function
catches every exception). -/
def get_arxiv_info_async (paper_id : String) (outcome : FetchOutcome String) : String :=
  match outcome with
  | .raised msg =>
    "Error fetching Arxiv info for paper " ++ paper_id ++ ". Try again later. " ++ msg
  | .response status body =>
    if is2xx status then body
    else "Error fetching Arxiv info for paper " ++ paper_id ++ ". Try again later. " ++
      httpStatusErrorMsg status

/-- `get_arxiv_info_for_papers_async` (src/paperpal.py): process the ids in
batches, `results.extend(batch_results)` after each `asyncio.gather`. -/
def get_arxiv_info_for_papers_async (net : String → FetchOutcome String)
    (paper_ids : List String) (batch_size : Nat) : List String :=
  (batchLoop batch_size paper_ids).foldl
    (fun results batch => results ++ batch.map (fun pid => get_arxiv_info_async pid (net pid)))
    []

/-- A `<link>` element of an arXiv Atom entry: its optional `title` and
`href` attributes (`Element.get` returns `None` for a missing attribute). -/
structure AtomLink where
  title : Option String := none
  href : Option String := none
deriving DecidableEq

/-- One `<entry>` of the arXiv Atom feed.  A text field is `none` when the
child element is missing or has no text (both make the subsequent attribute
access raise).  `authors` holds the text of each `<author><name>` child and
`categories` each `<category>` element's `term` attribute; the model assumes
each author element carries a name with text, as every feed in the spec's
scenarios does. -/
structure AtomEntry where
  idText : Option String := none
  titleText : Option String := none
  summaryText : Option String := none
  authors : List String := []
  categories : List String := []
  links : List AtomLink := []
deriving DecidableEq

/-- The body of the arXiv query response: either `ET.fromstring` raises a
`ParseError`, or it yields a feed with a list of entries. -/
inductive ArxivBody where
  | malformedXml (msg : String)
  | feed (entries : List AtomEntry)
deriving DecidableEq

/-- The per-entry block of the parsing loop in `search_arxiv`
(src/paperpal/arxiv.py lines 148-180): extract the trailing path segment of
the `<id>` URL, the first `pdf`-titled link's `href` (or `None`), authors,
categories, stripped title/summary, then construct the `ArxivPaper`.
A missing `<id>`/`<title>`/`<summary>` raises an `AttributeError`
(`None.text` / `None.strip()`), which the caller's `except` catches. -/
def parse_arxiv_entry (entry : AtomEntry) : Except PyError ArxivPaper :=
  match entry.idText with
  | none => .error (.attributeError "NoneType has no attribute split")
  | some id_url =>
    let arxiv_id := (id_url.splitOn "/").getLastD ""
    let pdf_link := entry.links.find? (fun l => l.title == some "pdf")
    let pdf_url := match pdf_link with
      | some l => l.href
      | none => none
    match entry.titleText, entry.summaryText with
    | some t, some s =>
      ArxivPaper.construct
        { title := some t.trim,
          summary := some s.trim,
          authors := some entry.authors,
          categories := some entry.categories,
          arxiv_id := some arxiv_id,
          pdf_url := pdf_url,
          bibtex := none }
    | _, _ => .error (.attributeError "NoneType has no attribute strip")

/-- The error-placeholder construction `ArxivPaper(error_message=...)` used
by the `except` handlers of `search_arxiv`. -/
def arxiv_error_record (msg : String) : Except PyError ArxivPaper :=
  ArxivPaper.construct { error_message := some msg }

/-- `search_arxiv` (src/paperpal/arxiv.py), as a function of the HTTP
outcome, the BibTeX network oracle, and the `fetch_bibtex_data` flag.  The
`try` body raises on transport errors, non-2xx status (`raise_for_status`),
malformed XML, and entry-parsing failures; each `except` handler then builds
its `ArxivPaper(error_message=...)` placeholder — whose construction itself
raises (see `ArxivPaper.construct`). -/
def search_arxiv (outcome : FetchOutcome ArxivBody) (net : String → FetchOutcome String)
    (fetch_bibtex_data : Bool) : Except PyError (List ArxivPaper) :=
  let tryResult : Except PyError (List ArxivPaper) :=
    match outcome with
    | .raised msg => .error (.httpError msg)
    | .response status body =>
      if !is2xx status then .error (.httpError (httpStatusErrorMsg status))
      else
        match body with
        | .malformedXml msg => .error (.xmlParseError msg)
        | .feed entries =>
          match entries.mapM parse_arxiv_entry with
          | .error e => .error e
          | .ok papers =>
            .ok (if fetch_bibtex_data && !papers.isEmpty then
                add_bibtex_to_papers arxivBibtexFields net papers 5
              else papers)
  match tryResult with
  | .ok papers => .ok papers
  | .error (.httpError m) => (arxiv_error_record ("HTTP error occurred: " ++ m)).map ([·])
  | .error (.xmlParseError m) => (arxiv_error_record ("XML parsing error: " ++ m)).map ([·])
  | .error e => (arxiv_error_record ("An unexpected error occurred: " ++ pyErrMsg e)).map ([·])

/-- One item of the HuggingFace papers-search JSON response, restricted to
the `paper` sub-dict fields the parser reads (the model assumes the keys are
present, as in every canned response of the spec's scenarios); `authors`
holds each author dict's optional `name` field. -/
structure HFEntry where
  title : String
  summary : String
  id : String
  upvotes : Int
  authors : List (Option String) := []
deriving DecidableEq

/-- `parse_authors` (src/paperpal/huggingface.py): append each author's
`name` when the key is present. -/
def parse_authors (authors_data : List (Option String)) : List String :=
  authors_data.foldl
    (fun authors a =>
      match a with
      | some n => authors ++ [n]
      | none => authors)
    []

/-- `parse_paper` (src/paperpal/huggingface.py): construct a
`HuggingFacePaper` from one response item. -/
def parse_paper (paper : HFEntry) : Except PyError HuggingFacePaper :=
  HuggingFacePaper.construct
    { title := some paper.title,
      summary := some paper.summary,
      arxiv_id := some paper.id,
      upvotes := some paper.upvotes,
      authors := some (parse_authors paper.authors) }

/-- The record `parse_paper` succeeds with (construction with all required
fields present always succeeds). -/
def hf_of_entry (paper : HFEntry) : HuggingFacePaper :=
  { title := paper.title,
    summary := paper.summary,
    authors := parse_authors paper.authors,
    arxiv_id := paper.id,
    upvotes := paper.upvotes,
    arxiv_url := some ("https://arxiv.org/abs/" ++ paper.id),
    bibtex := none,
    error_message := none,
    author_short := some (create_author_short (parse_authors paper.authors)) }

/-- The body of the HuggingFace search response: either `response.json()`
raises, or it yields the list of paper items. -/
inductive HFBody where
  | badJson (msg : String)
  | entries (items : List HFEntry)
deriving DecidableEq

/-- `semantic_search_huggingface_papers` (src/paperpal/huggingface.py).
The `try` body truncates the decoded list client-side with
`papers_json[:top_n]`, parses each item, and optionally enriches with
BibTeX; the single `except Exception` handler builds
`HuggingFacePaper(error_message=...)` — whose construction raises a
`ValidationError`, since the five required fields are missing. -/
def semantic_search_huggingface_papers (outcome : FetchOutcome HFBody) (top_n : Nat)
    (net : String → FetchOutcome String) (fetch_bibtex_data : Bool) :
    Except PyError (List HuggingFacePaper) :=
  let tryResult : Except PyError (List HuggingFacePaper) :=
    match outcome with
    | .raised msg => .error (.httpError msg)
    | .response status body =>
      if !is2xx status then .error (.httpError (httpStatusErrorMsg status))
      else
        match body with
        | .badJson msg => .error (.otherError msg)
        | .entries items =>
          match (items.take top_n).mapM parse_paper with
          | .error e => .error e
          | .ok papers =>
            .ok (if fetch_bibtex_data && !papers.isEmpty then
                add_bibtex_to_papers hfBibtexFields net papers 5
              else papers)
  match tryResult with
  | .ok papers => .ok papers
  | .error e =>
    match HuggingFacePaper.construct
        { error_message :=
            some ("Error fetching papers from HuggingFace. Try again later. " ++ pyErrMsg e) } with
    | .ok p => .ok [p]
    | .error e2 => .error e2

/-- The body of the Semantic Scholar search response: either
`response.json()["data"]` raises, or it yields the list of paper items. -/
inductive S2Body where
  | badJson (msg : String)
  | data (entries : List S2Entry)
deriving DecidableEq

/-- The error-placeholder `SemanticScholarPaper(error_message=...)`: all
fields are optional and the model has no validators, so it always succeeds. -/
def s2_error_record (msg : String) : SemanticScholarPaper :=
  { error_message := some msg }

/-- `search_semantic_scholar` (src/paperpal/s2.py): a 429 status is checked
before `raise_for_status` and yields a dedicated rate-limit record; any other
non-2xx status raises an `httpx.HTTPStatusError` caught by the
`except httpx.HTTPError` handler; any other exception falls to the generic
handler.  Both handlers build plain `SemanticScholarPaper` records, so no
exception escapes. -/
def search_semantic_scholar (outcome : FetchOutcome S2Body) :
    Except PyError (List SemanticScholarPaper) :=
  let tryResult : Except PyError (List SemanticScholarPaper) :=
    match outcome with
    | .raised msg => .error (.httpError msg)
    | .response status body =>
      if status == 429 then
        .ok [s2_error_record "Rate limit exceeded. Try again after later."]
      else if !is2xx status then .error (.httpError (httpStatusErrorMsg status))
      else
        match body with
        | .badJson msg => .error (.otherError msg)
        | .data entries => .ok (entries.map parse_semantic_scholar_paper)
  match tryResult with
  | .ok papers => .ok papers
  | .error (.httpError m) =>
    .ok [s2_error_record ("Failed to fetch papers from Semantic Scholar: " ++ m)]
  | .error e =>
    .ok [s2_error_record ("Unexpected error while searching Semantic Scholar: " ++ pyErrMsg e)]

/-- `stringify_papers` (src/paperpal/mcp_server.py), applied to the
already-stringified records (`str(paper)` is duck-typed in the source). -/
def stringify_papers (paper_strs : List String) : String :=
  "List of papers:\n---\n" ++ String.intercalate "\n---\n" paper_strs ++ "\n---\n"

/-- The `search_papers_on_huggingface` tool (src/paperpal/mcp_server.py):
call the adapter with the default `fetch_bibtex_data=True` and format the
result (an exception from the adapter propagates out of the tool). -/
def search_papers_on_huggingface (outcome : FetchOutcome HFBody) (top_n : Nat)
    (net : String → FetchOutcome String) : Except PyError String :=
  (semantic_search_huggingface_papers outcome top_n net true).map
    (fun papers => stringify_papers (papers.map HuggingFacePaper.str))

/-! ### Helper lemmas about the batch loop and the dictionary merge -/

theorem batchLoop_nil (B : Nat) : batchLoop B ([] : List α) = [] := by
  simp [batchLoop]

theorem batchLoop_cons (B : Nat) (hB : 0 < B) (x : α) (rest : List α) :
    batchLoop B (x :: rest) =
      (x :: rest).take B :: batchLoop B ((x :: rest).drop B) := by
  rw [batchLoop]
  simp [Nat.pos_iff_ne_zero.mp hB]

theorem batchLoop_foldl_append {β : Type} (f : α → β) (B : Nat) (hB : 0 < B) :
    ∀ (n : Nat) (xs : List α), xs.length ≤ n → ∀ (acc : List β),
      (batchLoop B xs).foldl (fun r b => r ++ b.map f) acc = acc ++ xs.map f := by
  intro n
  induction n with
  | zero =>
    intro xs hx acc
    have hxs : xs = [] := List.eq_nil_of_length_eq_zero (Nat.le_zero.mp hx)
    subst hxs
    simp [batchLoop_nil]
  | succ n ih =>
    intro xs hx acc
    match xs with
    | [] => simp [batchLoop_nil]
    | x :: rest =>
      rw [batchLoop_cons B hB, List.foldl_cons,
        ih ((x :: rest).drop B) (by simp only [List.length_drop, List.length_cons] at hx ⊢; omega)
          (acc ++ ((x :: rest).take B).map f),
        List.append_assoc, ← List.map_append, List.take_append_drop]

theorem batchLoop_chunk_le (B : Nat) (hB : 0 < B) :
    ∀ (n : Nat) (xs : List α), xs.length ≤ n →
      ∀ c ∈ batchLoop B xs, c.length ≤ B := by
  intro n
  induction n with
  | zero =>
    intro xs hx c hc
    have hxs : xs = [] := List.eq_nil_of_length_eq_zero (Nat.le_zero.mp hx)
    subst hxs
    simp [batchLoop_nil] at hc
  | succ n ih =>
    intro xs hx c hc
    match xs with
    | [] => simp [batchLoop_nil] at hc
    | x :: rest =>
      rw [batchLoop_cons B hB] at hc
      rcases List.mem_cons.mp hc with h | h
      · subst h
        simp [List.length_take]
      · exact ih ((x :: rest).drop B) (by simp only [List.length_drop, List.length_cons] at hx ⊢; omega) c h

theorem dictUpdate_zip (net : String → FetchOutcome String) (b : List String) :
    ∀ (d : String → Option String) (k : String),
      dictUpdate d (b.zip (b.map (bibtexResult net))) k =
        if k ∈ b then some (bibtexResult net k) else d k := by
  induction b with
  | nil => intro d k; simp [dictUpdate]
  | cons x rest ih =>
    intro d k
    simp only [List.map_cons, List.zip_cons_cons, dictUpdate, List.foldl_cons]
    have hrec := ih (fun k => if k = x then some (bibtexResult net x) else d k) k
    simp only [dictUpdate] at hrec
    rw [hrec]
    by_cases hk : k ∈ rest
    · simp [hk, List.mem_cons]
    · by_cases hkx : k = x
      · subst hkx
        simp [hk]
      · simp [hk, hkx, List.mem_cons]

theorem fetch_bibtex_batch_foldl (net : String → FetchOutcome String) (B : Nat) (hB : 0 < B) :
    ∀ (n : Nat) (xs : List String), xs.length ≤ n →
      ∀ (d : String → Option String) (k : String),
        (batchLoop B xs).foldl
            (fun res b => dictUpdate res (b.zip (b.map (bibtexResult net)))) d k =
          if k ∈ xs then some (bibtexResult net k) else d k := by
  intro n
  induction n with
  | zero =>
    intro xs hx d k
    have hxs : xs = [] := List.eq_nil_of_length_eq_zero (Nat.le_zero.mp hx)
    subst hxs
    simp [batchLoop_nil]
  | succ n ih =>
    intro xs hx d k
    match xs with
    | [] => simp [batchLoop_nil]
    | x :: rest =>
      rw [batchLoop_cons B hB, List.foldl_cons,
        ih ((x :: rest).drop B) (by simp only [List.length_drop, List.length_cons] at hx ⊢; omega)
          (dictUpdate d (((x :: rest).take B).zip (((x :: rest).take B).map (bibtexResult net)))) k,
        dictUpdate_zip]
      have hsplit : k ∈ x :: rest ↔ k ∈ (x :: rest).take B ∨ k ∈ (x :: rest).drop B := by
        conv_lhs => rw [← List.take_append_drop B (x :: rest)]
        exact List.mem_append
      by_cases h1 : k ∈ (x :: rest).drop B
      · simp [h1, hsplit.mpr (Or.inr h1)]
      · by_cases h2 : k ∈ (x :: rest).take B
        · simp [h1, h2, hsplit.mpr (Or.inl h2)]
        · have : ¬ k ∈ x :: rest := fun h => (hsplit.mp h).elim h2 h1
          simp [h1, h2, this]

theorem fetch_bibtex_batch_lookup (net : String → FetchOutcome String) (B : Nat) (hB : 0 < B)
    (xs : List String) (k : String) :
    fetch_bibtex_batch net xs B k = if k ∈ xs then some (bibtexResult net k) else none := by
  unfold fetch_bibtex_batch
  exact fetch_bibtex_batch_foldl net B hB xs.length xs le_rfl (fun _ => none) k

/-! ### Helper lemmas about enrichment -/

theorem mem_ids_to_fetch (fl : BibtexFields α) (papers : List α) (a : String) :
    a ∈ ids_to_fetch fl papers ↔
      ∃ p ∈ papers, fl.arxiv_id p = some a ∧ pyTruthyStr a ∧
        ¬ pyTruthyStrOpt (fl.bibtex p) := by
  unfold ids_to_fetch
  simp only [List.mem_filterMap, List.mem_filter, Bool.and_eq_true, Bool.not_eq_true']
  constructor
  · rintro ⟨p, ⟨⟨hp, htruthy, hbib⟩, hid⟩⟩
    rw [hid] at htruthy
    exact ⟨p, hp, hid, htruthy, by simp [hbib]⟩
  · rintro ⟨p, hp, hid, htruthy, hbib⟩
    exact ⟨p, ⟨hp, by rw [hid]; exact htruthy, by simpa using hbib⟩, hid⟩

theorem ids_to_fetch_truthy (fl : BibtexFields α) (papers : List α) (a : String)
    (ha : a ∈ ids_to_fetch fl papers) : pyTruthyStr a := by
  obtain ⟨p, _, _, htruthy, _⟩ := (mem_ids_to_fetch fl papers a).mp ha
  exact htruthy

theorem ids_to_fetch_empty (fl : BibtexFields α) (papers : List α)
    (h : (ids_to_fetch fl papers).isEmpty) (p : α) (hp : p ∈ papers)
    (aid : String) (hid : fl.arxiv_id p = some aid) (htruthy : pyTruthyStr aid) :
    pyTruthyStrOpt (fl.bibtex p) := by
  by_contra hbib
  have : aid ∈ ids_to_fetch fl papers :=
    (mem_ids_to_fetch fl papers aid).mpr ⟨p, hp, hid, htruthy, hbib⟩
  rw [List.isEmpty_iff] at h
  simp [h] at this

/-- The enrichment merge is a pointwise map: with a positive batch size, each
record's outcome depends only on that record (and the fetch oracle), never on
its position or its neighbours. -/
theorem add_bibtex_eq_map_enrichOne (fl : BibtexFields α) (net : String → FetchOutcome String)
    (papers : List α) (B : Nat) (hB : 0 < B) :
    add_bibtex_to_papers fl net papers B = papers.map (enrichOne fl net) := by
  unfold add_bibtex_to_papers
  by_cases hids : (ids_to_fetch fl papers).isEmpty
  · simp only [hids, if_pos]
    have : ∀ p ∈ papers, enrichOne fl net p = p := by
      intro p hp
      unfold enrichOne
      cases hid : fl.arxiv_id p with
      | none => rfl
      | some aid =>
        by_cases htruthy : pyTruthyStr aid
        · have := ids_to_fetch_empty fl papers hids p hp aid hid htruthy
          simp [this]
        · simp [htruthy]
    rw [List.map_congr_left this]
    simp
  · simp only [hids, if_neg, Bool.false_eq_true, not_false_iff]
    apply List.map_congr_left
    intro p hp
    cases hid : fl.arxiv_id p with
    | none => simp [enrichOne, hid]
    | some aid =>
      simp only [fetch_bibtex_batch_lookup net B hB]
      by_cases htruthy : pyTruthyStr aid
      · by_cases hbib : pyTruthyStrOpt (fl.bibtex p)
        · by_cases hmem : aid ∈ ids_to_fetch fl papers <;>
            simp [enrichOne, hid, htruthy, hbib, hmem]
        · have hmem : aid ∈ ids_to_fetch fl papers :=
            (mem_ids_to_fetch fl papers aid).mpr ⟨p, hp, hid, htruthy, hbib⟩
          simp [enrichOne, hid, htruthy, hbib, hmem]
      · have hmem : aid ∉ ids_to_fetch fl papers := fun h =>
          htruthy (ids_to_fetch_truthy fl papers aid h)
        simp [enrichOne, hid, htruthy, hmem]

/-- `parse_paper` always succeeds, with `hf_of_entry` as its value. -/
theorem parse_paper_ok (e : HFEntry) : parse_paper e = .ok (hf_of_entry e) := rfl

theorem mapM_parse_paper (items : List HFEntry) :
    items.mapM parse_paper = .ok (items.map hf_of_entry) := by
  induction items with
  | nil => rfl
  | cons e rest ih => rw [List.mapM_cons, parse_paper_ok, ih]; rfl

/-! ### Claim theorems -/

/-- C8: `create_author_short` is a pure function of the author list: the
empty list gives "", a one-element list gives the sole name, and a list of
two or more authors gives the first author followed by " et al.". -/
theorem c8_author_short_cases :
    create_author_short [] = "" ∧
    (∀ a : String, create_author_short [a] = a) ∧
    (∀ (a b : String) (rest : List String),
      create_author_short (a :: b :: rest) = a ++ " et al.") := by
  refine ⟨rfl, fun a => rfl, fun a b rest => ?_⟩
  simp [create_author_short]

/-- C1 (code bug): on every failure path, the arXiv and HuggingFace adapters
try to build their error placeholder record, but the construction itself
raises — `ArxivPaper(error_message=...)` hits `len(None)` inside the
`set_author_short` validator (TypeError), and
`HuggingFacePaper(error_message=...)` omits the five required fields
(ValidationError) — so an exception escapes the adapter boundary instead of
an error-bearing record; only the Semantic Scholar adapter returns one. -/
theorem c1_error_placeholder_construction_raises :
    HuggingFacePaper.construct
        { error_message := some "Error fetching papers from HuggingFace. Try again later. boom" }
      = .error (.validationError "missing required fields") ∧
    arxiv_error_record "HTTP error occurred: boom"
      = .error (.typeError "object of type NoneType has no len") ∧
    search_arxiv (.raised "boom") (fun _ => .raised "down") true
      = .error (.typeError "object of type NoneType has no len") ∧
    search_arxiv (.response 500 (.feed [])) (fun _ => .raised "down") true
      = .error (.typeError "object of type NoneType has no len") ∧
    search_arxiv (.response 200 (.malformedXml "bad xml")) (fun _ => .raised "down") true
      = .error (.typeError "object of type NoneType has no len") ∧
    semantic_search_huggingface_papers (.raised "boom") 10 (fun _ => .raised "down") true
      = .error (.validationError "missing required fields") ∧
    semantic_search_huggingface_papers (.response 200 (.badJson "bad json")) 10
        (fun _ => .raised "down") true
      = .error (.validationError "missing required fields") ∧
    search_semantic_scholar (.raised "boom")
      = .ok [s2_error_record "Failed to fetch papers from Semantic Scholar: boom"] :=
  ⟨rfl, rfl, rfl, rfl, rfl, rfl, rfl, rfl⟩

/-- C2 (code bug): a record with `error_message` set renders as the error
text alone for `ArxivPaper` and `SemanticScholarPaper`, but
`HuggingFacePaper.__str__` has no error branch at all: it always renders the
content fields, so an error-bearing HuggingFace record is not rendered as
its error text. -/
theorem c2_error_rendering :
    (∀ p : ArxivPaper, pyTruthyStrOpt p.error_message →
      ArxivPaper.str p = "Error: " ++ pyStr p.error_message) ∧
    (∀ p : SemanticScholarPaper, pyTruthyStrOpt p.error_message →
      SemanticScholarPaper.str p = "Error: " ++ pyStr p.error_message) ∧
    (∀ p : HuggingFacePaper,
      HuggingFacePaper.str p =
        "Title: " ++ p.title ++ "\nSummary: " ++ p.summary ++ "\nID: " ++ p.arxiv_id ++
          "\nUpvotes: " ++ toString p.upvotes ++ "\nURL: " ++ pyStr p.arxiv_url) ∧
    (∃ p : HuggingFacePaper,
      HuggingFacePaper.construct
          { title := some "T", summary := some "S", authors := some [],
            arxiv_id := some "2501.00001", upvotes := some 3,
            error_message := some "boom" }
        = .ok p ∧
      pyTruthyStrOpt p.error_message ∧
      HuggingFacePaper.str p ≠ "Error: " ++ pyStr p.error_message) := by
  refine ⟨fun p h => ?_, fun p h => ?_, fun p => ?_, ⟨_, rfl, by decide, by decide⟩⟩
  · unfold ArxivPaper.str
    rw [if_pos h]
  · unfold SemanticScholarPaper.str
    rw [if_pos h]
  · rfl

/-- Witness for C2 at a concrete error-bearing record of each type. -/
theorem c2_error_rendering_witness :
    ArxivPaper.str { error_message := some "boom" } =
      "Error: " ++ pyStr (some "boom") ∧
    SemanticScholarPaper.str { error_message := some "boom" } =
      "Error: " ++ pyStr (some "boom") :=
  ⟨c2_error_rendering.1 { error_message := some "boom" } (by decide),
    c2_error_rendering.2.1 { error_message := some "boom" } (by decide)⟩

/-- C10: the `create_url` after-validator unconditionally overwrites
`arxiv_url` with "https://arxiv.org/abs/" followed by the record's
`arxiv_id` (rendered "None" when absent), for every successfully constructed
`ArxivPaper` or `HuggingFacePaper`, whatever `arxiv_url` was supplied. -/
theorem c10_arxiv_url_overwritten :
    (∀ kw p : ArxivPaper, ArxivPaper.construct kw = .ok p →
      p.arxiv_url = some ("https://arxiv.org/abs/" ++ pyStr p.arxiv_id)) ∧
    (∀ (kw : HFKwargs) (p : HuggingFacePaper), HuggingFacePaper.construct kw = .ok p →
      p.arxiv_url = some ("https://arxiv.org/abs/" ++ p.arxiv_id)) := by
  constructor
  · intro kw p h
    unfold ArxivPaper.construct at h
    cases hau : kw.authors with
    | none => simp [hau] at h
    | some authors =>
      simp only [hau] at h
      cases h
      rfl
  · intro kw p h
    unfold HuggingFacePaper.construct at h
    cases ht : kw.title <;> cases hs : kw.summary <;> cases hau : kw.authors <;>
      cases hid : kw.arxiv_id <;> cases hup : kw.upvotes <;>
      simp only [ht, hs, hau, hid, hup] at h <;> first
      | (cases h; rfl)
      | exact Except.noConfusion h

/-- Witness for C10: concrete constructions, one with `arxiv_id` absent and
a junk `arxiv_url` supplied, one HuggingFace record. -/
theorem c10_arxiv_url_overwritten_witness :
    (∃ p : ArxivPaper,
      ArxivPaper.construct { arxiv_id := none, arxiv_url := some "junk", authors := some [] }
        = .ok p ∧ p.arxiv_url = some ("https://arxiv.org/abs/" ++ pyStr p.arxiv_id) ∧
        p.arxiv_url = some "https://arxiv.org/abs/None") ∧
    (∃ p : HuggingFacePaper,
      HuggingFacePaper.construct
          { title := some "T", summary := some "S", authors := some ["A"],
            arxiv_id := some "2503.01469", upvotes := some 1, arxiv_url := some "junk" }
        = .ok p ∧ p.arxiv_url = some ("https://arxiv.org/abs/" ++ p.arxiv_id) ∧
        p.arxiv_url = some "https://arxiv.org/abs/2503.01469") := by
  constructor
  · refine ⟨{ authors := some [],
              arxiv_url := some "https://arxiv.org/abs/None",
              author_short := some "" }, ?_, ?_, ?_⟩
    · rfl
    · exact c10_arxiv_url_overwritten.1
        { arxiv_id := none, arxiv_url := some "junk", authors := some [] } _ (by rfl)
    · rfl
  · refine ⟨{ title := "T", summary := "S", authors := ["A"], arxiv_id := "2503.01469",
              upvotes := 1, arxiv_url := some "https://arxiv.org/abs/2503.01469",
              bibtex := none, error_message := none,
              author_short := some "A" }, ?_, ?_, ?_⟩
    · rfl
    · exact c10_arxiv_url_overwritten.2
        { title := some "T", summary := some "S", authors := some ["A"],
          arxiv_id := some "2503.01469", upvotes := some 1, arxiv_url := some "junk" } _ (by rfl)
    · rfl

theorem batchLoop_flatten_map {β : Type} (f : α → β) (B : Nat) (hB : 0 < B) (xs : List α) :
    (batchLoop B xs).foldl (fun r b => r ++ b.map f) [] = xs.map f := by
  simpa using batchLoop_foldl_append f B hB xs.length xs le_rfl []

/-- C3: for every task list and every positive batch size, the batch loop
splits the input into consecutive chunks of at most `batch_size` elements,
and both batched pipelines preserve input order — the abstract-fetch
pipeline returns exactly the per-task results in input position, and the
BibTeX pipeline's dictionary maps the identifier at every input position to
that identifier's own fetch result. -/
theorem c3_batched_fetch_order (net net2 : String → FetchOutcome String)
    (ids : List String) (B : Nat) (hB : 0 < B) :
    get_arxiv_info_for_papers_async net ids B
      = ids.map (fun pid => get_arxiv_info_async pid (net pid)) ∧
    (get_arxiv_info_for_papers_async net ids B).length = ids.length ∧
    (∀ c ∈ batchLoop B ids, c.length ≤ B) ∧
    (batchLoop B ids).foldl (fun r c => r ++ c) [] = ids ∧
    (∀ i (h : i < ids.length),
      fetch_bibtex_batch net2 ids B (ids.get ⟨i, h⟩)
        = some (bibtexResult net2 (ids.get ⟨i, h⟩))) := by
  have hmain : get_arxiv_info_for_papers_async net ids B
      = ids.map (fun pid => get_arxiv_info_async pid (net pid)) :=
    batchLoop_flatten_map (fun pid => get_arxiv_info_async pid (net pid)) B hB ids
  refine ⟨hmain, by rw [hmain, List.length_map], ?_, ?_, ?_⟩
  · exact batchLoop_chunk_le B hB ids.length ids le_rfl
  · have h := batchLoop_flatten_map (fun x => x) B hB ids
    simpa using h
  · intro i h
    rw [fetch_bibtex_batch_lookup net2 B hB, if_pos (ids.get_mem i h)]

/-- Witness for C3 at three tasks and batch size two. -/
theorem c3_batched_fetch_order_witness :
    get_arxiv_info_for_papers_async
        (fun s => .response 200 (s ++ "X")) ["a", "b", "c"] 2
      = ["aX", "bX", "cX"] ∧
    fetch_bibtex_batch (fun s => .response 200 (s ++ "B")) ["a", "b", "c"] 2 "c"
      = some "cB" := by
  have h := c3_batched_fetch_order (fun s => .response 200 (s ++ "X"))
    (fun s => .response 200 (s ++ "B")) ["a", "b", "c"] 2 (by decide)
  constructor
  · rw [h.1]
    rfl
  · have h5 := h.2.2.2.2 2 (by decide)
    exact h5

/-- `enrichOne` at the `ArxivPaper` instance, with the field accesses
reduced. -/
theorem enrichOne_arxiv (net : String → FetchOutcome String) (p : ArxivPaper) :
    enrichOne arxivBibtexFields net p =
      match p.arxiv_id with
      | none => p
      | some aid =>
        if pyTruthyStr aid && !pyTruthyStrOpt p.bibtex then
          { p with bibtex := some (bibtexResult net aid) }
        else p := rfl

/-- `enrichOne` at the `HuggingFacePaper` instance, with the field accesses
reduced. -/
theorem enrichOne_hf (net : String → FetchOutcome String) (p : HuggingFacePaper) :
    enrichOne hfBibtexFields net p =
      (if pyTruthyStr p.arxiv_id && !pyTruthyStrOpt p.bibtex then
        { p with bibtex := some (bibtexResult net p.arxiv_id) }
      else p) := rfl

/-- C4: for both record types enrichment is applied to in the repository
(`ArxivPaper` and `HuggingFacePaper`), enrichment preserves the list's
length and order (the result is the pointwise map of `enrichOne`); a record
whose identifier is falsy, or whose citation is already populated, passes
through unchanged; no empty identifier is ever in the fetched list; and the
per-record update can only change the `bibtex` field — every other field is
preserved. -/
theorem c4_enrichment_frame (net : String → FetchOutcome String)
    (papers : List ArxivPaper) (hf_papers : List HuggingFacePaper) (B : Nat) (hB : 0 < B) :
    add_bibtex_to_papers arxivBibtexFields net papers B
      = papers.map (enrichOne arxivBibtexFields net) ∧
    (add_bibtex_to_papers arxivBibtexFields net papers B).length = papers.length ∧
    (∀ p : ArxivPaper, ¬ pyTruthyStrOpt p.arxiv_id →
      enrichOne arxivBibtexFields net p = p) ∧
    (∀ p : ArxivPaper, pyTruthyStrOpt p.bibtex →
      enrichOne arxivBibtexFields net p = p) ∧
    (∀ a ∈ ids_to_fetch arxivBibtexFields papers, a ≠ "") ∧
    (∀ p : ArxivPaper,
      (enrichOne arxivBibtexFields net p).title = p.title ∧
      (enrichOne arxivBibtexFields net p).summary = p.summary ∧
      (enrichOne arxivBibtexFields net p).authors = p.authors ∧
      (enrichOne arxivBibtexFields net p).categories = p.categories ∧
      (enrichOne arxivBibtexFields net p).arxiv_id = p.arxiv_id ∧
      (enrichOne arxivBibtexFields net p).pdf_url = p.pdf_url ∧
      (enrichOne arxivBibtexFields net p).error_message = p.error_message ∧
      (enrichOne arxivBibtexFields net p).arxiv_url = p.arxiv_url ∧
      (enrichOne arxivBibtexFields net p).author_short = p.author_short) ∧
    add_bibtex_to_papers hfBibtexFields net hf_papers B
      = hf_papers.map (enrichOne hfBibtexFields net) ∧
    (add_bibtex_to_papers hfBibtexFields net hf_papers B).length = hf_papers.length ∧
    (∀ p : HuggingFacePaper, ¬ pyTruthyStr p.arxiv_id →
      enrichOne hfBibtexFields net p = p) ∧
    (∀ p : HuggingFacePaper, pyTruthyStrOpt p.bibtex →
      enrichOne hfBibtexFields net p = p) ∧
    (∀ a ∈ ids_to_fetch hfBibtexFields hf_papers, a ≠ "") ∧
    (∀ p : HuggingFacePaper,
      (enrichOne hfBibtexFields net p).title = p.title ∧
      (enrichOne hfBibtexFields net p).summary = p.summary ∧
      (enrichOne hfBibtexFields net p).authors = p.authors ∧
      (enrichOne hfBibtexFields net p).arxiv_id = p.arxiv_id ∧
      (enrichOne hfBibtexFields net p).upvotes = p.upvotes ∧
      (enrichOne hfBibtexFields net p).arxiv_url = p.arxiv_url ∧
      (enrichOne hfBibtexFields net p).error_message = p.error_message ∧
      (enrichOne hfBibtexFields net p).author_short = p.author_short) := by
  have hmain := add_bibtex_eq_map_enrichOne arxivBibtexFields net papers B hB
  have hmainHF := add_bibtex_eq_map_enrichOne hfBibtexFields net hf_papers B hB
  refine ⟨hmain, by rw [hmain, List.length_map], ?_, ?_, ?_, ?_,
    hmainHF, by rw [hmainHF, List.length_map], ?_, ?_, ?_, ?_⟩
  · intro p hid
    rw [enrichOne_arxiv]
    cases ha : p.arxiv_id with
    | none => rfl
    | some a =>
      rw [ha] at hid
      simp only [pyTruthyStrOpt, Bool.not_eq_true] at hid
      simp [hid]
  · intro p hbib
    rw [enrichOne_arxiv]
    cases ha : p.arxiv_id with
    | none => rfl
    | some a => simp [hbib]
  · intro a ha heq
    have h := ids_to_fetch_truthy arxivBibtexFields papers a ha
    rw [heq] at h
    simp [pyTruthyStr] at h
  · intro p
    have h : enrichOne arxivBibtexFields net p = p ∨
        ∃ v, enrichOne arxivBibtexFields net p = { p with bibtex := v } := by
      rw [enrichOne_arxiv]
      cases p.arxiv_id with
      | none => exact Or.inl rfl
      | some a =>
        by_cases hc : (pyTruthyStr a && !pyTruthyStrOpt p.bibtex) = true
        · exact Or.inr ⟨some (bibtexResult net a), by simp [hc]⟩
        · exact Or.inl (by simp [hc])
    rcases h with h | ⟨v, h⟩ <;> rw [h] <;>
      exact ⟨rfl, rfl, rfl, rfl, rfl, rfl, rfl, rfl, rfl⟩
  · intro p hid
    have hidf : pyTruthyStr p.arxiv_id = false := by
      cases hx : pyTruthyStr p.arxiv_id
      · rfl
      · exact absurd hx hid
    rw [enrichOne_hf]
    simp [hidf]
  · intro p hbib
    rw [enrichOne_hf]
    simp [hbib]
  · intro a ha heq
    have h := ids_to_fetch_truthy hfBibtexFields hf_papers a ha
    rw [heq] at h
    simp [pyTruthyStr] at h
  · intro p
    have h : enrichOne hfBibtexFields net p = p ∨
        ∃ v, enrichOne hfBibtexFields net p = { p with bibtex := v } := by
      rw [enrichOne_hf]
      by_cases hc : (pyTruthyStr p.arxiv_id && !pyTruthyStrOpt p.bibtex) = true
      · exact Or.inr ⟨some (bibtexResult net p.arxiv_id), by simp [hc]⟩
      · exact Or.inl (by simp [hc])
    rcases h with h | ⟨v, h⟩ <;> rw [h] <;>
      exact ⟨rfl, rfl, rfl, rfl, rfl, rfl, rfl, rfl⟩

/-- Witness for C4 with three concrete records of each type: one enrichable,
one with a citation already set, one without a (truthy) identifier. -/
theorem c4_enrichment_frame_witness :
    add_bibtex_to_papers arxivBibtexFields
        (fun s => .response 200 ("bib-" ++ s))
        [{ arxiv_id := some "2503.01469" },
         { arxiv_id := some "2503.01470", bibtex := some "already" },
         { title := some "no id" }] 5
      = [{ arxiv_id := some "2503.01469", bibtex := some "bib-2503.01469" },
         { arxiv_id := some "2503.01470", bibtex := some "already" },
         { title := some "no id" }] ∧
    add_bibtex_to_papers hfBibtexFields
        (fun s => .response 200 ("bib-" ++ s))
        [{ title := "T1", summary := "S1", authors := ["A"], arxiv_id := "HF1", upvotes := 1 },
         { title := "T2", summary := "S2", authors := [], arxiv_id := "HF2", upvotes := 2,
           bibtex := some "already" },
         { title := "T3", summary := "S3", authors := [], arxiv_id := "", upvotes := 3 }] 5
      = [{ title := "T1", summary := "S1", authors := ["A"], arxiv_id := "HF1", upvotes := 1,
           bibtex := some "bib-HF1" },
         { title := "T2", summary := "S2", authors := [], arxiv_id := "HF2", upvotes := 2,
           bibtex := some "already" },
         { title := "T3", summary := "S3", authors := [], arxiv_id := "", upvotes := 3 }] := by
  have h := c4_enrichment_frame (fun s => .response 200 ("bib-" ++ s))
    [{ arxiv_id := some "2503.01469" },
     { arxiv_id := some "2503.01470", bibtex := some "already" },
     { title := some "no id" }]
    [{ title := "T1", summary := "S1", authors := ["A"], arxiv_id := "HF1", upvotes := 1 },
     { title := "T2", summary := "S2", authors := [], arxiv_id := "HF2", upvotes := 2,
       bibtex := some "already" },
     { title := "T3", summary := "S3", authors := [], arxiv_id := "", upvotes := 3 }]
    5 (by decide)
  constructor
  · rw [h.1]
    rfl
  · rw [h.2.2.2.2.2.2.1]
    rfl

/-- C5: the enrichment merge correlates by identifier only — with a positive
batch size the result is the pointwise map of `enrichOne` (for both paper
types it is applied to), so each record's citation is a function of that
record alone, and permuting the input permutes the output accordingly. -/
theorem c5_merge_by_identifier (net : String → FetchOutcome String) (B : Nat) (hB : 0 < B) :
    (∀ papers : List ArxivPaper,
      add_bibtex_to_papers arxivBibtexFields net papers B
        = papers.map (enrichOne arxivBibtexFields net)) ∧
    (∀ papers : List HuggingFacePaper,
      add_bibtex_to_papers hfBibtexFields net papers B
        = papers.map (enrichOne hfBibtexFields net)) ∧
    (∀ papers papers' : List ArxivPaper, papers.Perm papers' →
      (add_bibtex_to_papers arxivBibtexFields net papers B).Perm
        (add_bibtex_to_papers arxivBibtexFields net papers' B)) := by
  refine ⟨fun papers => add_bibtex_eq_map_enrichOne _ net papers B hB,
    fun papers => add_bibtex_eq_map_enrichOne _ net papers B hB, ?_⟩
  intro papers papers' hperm
  rw [add_bibtex_eq_map_enrichOne _ net papers B hB,
    add_bibtex_eq_map_enrichOne _ net papers' B hB]
  exact hperm.map _

/-- Witness for C5: two records enriched in both orders receive the same
per-identifier citations. -/
theorem c5_merge_by_identifier_witness :
    add_bibtex_to_papers arxivBibtexFields (fun s => .response 200 ("bib-" ++ s))
        [{ arxiv_id := some "A1" }, { arxiv_id := some "A2" }] 5
      = [{ arxiv_id := some "A1", bibtex := some "bib-A1" },
         { arxiv_id := some "A2", bibtex := some "bib-A2" }] ∧
    add_bibtex_to_papers arxivBibtexFields (fun s => .response 200 ("bib-" ++ s))
        [{ arxiv_id := some "A2" }, { arxiv_id := some "A1" }] 5
      = [{ arxiv_id := some "A2", bibtex := some "bib-A2" },
         { arxiv_id := some "A1", bibtex := some "bib-A1" }] := by
  have h := c5_merge_by_identifier (fun s => .response 200 ("bib-" ++ s)) 5 (by decide)
  constructor
  · rw [h.1]
    rfl
  · rw [h.1]
    rfl

/-- `HuggingFacePaper.__str__` does not read `bibtex`, so enrichment does
not change a record's rendering. -/
theorem hf_str_enrichOne (net : String → FetchOutcome String) (p : HuggingFacePaper) :
    HuggingFacePaper.str (enrichOne hfBibtexFields net p) = HuggingFacePaper.str p := by
  rw [enrichOne_hf]
  by_cases hc : (pyTruthyStr p.arxiv_id && !pyTruthyStrOpt p.bibtex) = true
  · rw [if_pos hc]
    rfl
  · rw [if_neg hc]

/-- On a 2xx response the HuggingFace adapter parses the first `top_n` items
in response order and enriches them. -/
theorem hf_search_ok (entries : List HFEntry) (top_n : Nat)
    (net : String → FetchOutcome String) :
    semantic_search_huggingface_papers (.response 200 (.entries entries)) top_n net true
      = .ok (((entries.take top_n).map hf_of_entry).map (enrichOne hfBibtexFields net)) := by
  unfold semantic_search_huggingface_papers
  simp only [mapM_parse_paper]
  by_cases hemp : ((entries.take top_n).map hf_of_entry).isEmpty
  · have hnil : (entries.take top_n).map hf_of_entry = [] := List.isEmpty_iff.mp hemp
    simp [hnil, is2xx]
  · simp only [hemp, Bool.not_false, Bool.true_and,
      add_bibtex_eq_map_enrichOne hfBibtexFields net _ 5 (by decide)]
    simp [is2xx]

/-- First entry of the canned two-entry HuggingFace response used by the
spec's end-to-end scenario. -/
def hfCannedEntry1 : HFEntry :=
  { title := "Attention Is All You Need",
    summary := "The dominant sequence transduction models.",
    id := "1706.03762", upvotes := 50,
    authors := [some "Ashish Vaswani", some "Noam Shazeer"] }

/-- Second entry of the canned two-entry HuggingFace response. -/
def hfCannedEntry2 : HFEntry :=
  { title := "Another Paper", summary := "Another summary.",
    id := "2501.00002", upvotes := 7, authors := [none, some "Solo Author"] }

/-- C6: on a successful HuggingFace response of M entries with requested
count `top_n`, exactly `min top_n M` records are parsed — the first `top_n`
of the response, truncated client-side, in response order — and the canned
two-entry response with `top_n = 1` renders exactly one paper block built
from the first entry. -/
theorem c6_hf_truncation (entries : List HFEntry) (top_n : Nat)
    (net : String → FetchOutcome String) :
    semantic_search_huggingface_papers (.response 200 (.entries entries)) top_n net true
      = .ok (((entries.take top_n).map hf_of_entry).map (enrichOne hfBibtexFields net)) ∧
    (((entries.take top_n).map hf_of_entry).map (enrichOne hfBibtexFields net)).length
      = min top_n entries.length ∧
    search_papers_on_huggingface (.response 200 (.entries [hfCannedEntry1, hfCannedEntry2])) 1 net
      = .ok ("List of papers:\n---\nTitle: Attention Is All You Need\nSummary: The dominant sequence transduction models.\nID: 1706.03762\nUpvotes: 50\nURL: https://arxiv.org/abs/1706.03762\n---\n") := by
  refine ⟨hf_search_ok entries top_n net, by simp [List.length_take], ?_⟩
  unfold search_papers_on_huggingface
  rw [hf_search_ok]
  simp only [List.take_succ_cons, List.take_zero, List.map_cons, List.map_nil,
    Except.map, hf_str_enrichOne]
  rfl

/-- C7: a Semantic Scholar response with status 429 yields the dedicated
rate-limit error record, any other non-2xx status yields the generic
HTTP-error record, the two records are distinct for every status, and the
adapter never lets an exception escape. -/
theorem c7_s2_rate_limit :
    (∀ body : S2Body, search_semantic_scholar (.response 429 body)
      = .ok [s2_error_record "Rate limit exceeded. Try again after later."]) ∧
    (∀ (status : Nat) (body : S2Body), is2xx status = false → status ≠ 429 →
      search_semantic_scholar (.response status body)
        = .ok [s2_error_record
            ("Failed to fetch papers from Semantic Scholar: " ++ httpStatusErrorMsg status)]) ∧
    (∀ status : Nat,
      s2_error_record "Rate limit exceeded. Try again after later."
        ≠ s2_error_record
            ("Failed to fetch papers from Semantic Scholar: " ++ httpStatusErrorMsg status)) ∧
    (∀ outcome : FetchOutcome S2Body, (search_semantic_scholar outcome).isOk) := by
  refine ⟨fun body => rfl, ?_, ?_, ?_⟩
  · intro status body h429 hne
    have hbeq : (status == 429) = false := by simp [hne]
    unfold search_semantic_scholar
    simp [hbeq, h429]
  · intro status h
    have h1 := congrArg SemanticScholarPaper.error_message h
    simp only [s2_error_record, Option.some.injEq] at h1
    have h2 := congrArg String.length h1
    rw [String.length_append] at h2
    have hlt : ("Rate limit exceeded. Try again after later.").length
        < ("Failed to fetch papers from Semantic Scholar: ").length := by decide
    omega
  · intro outcome
    cases outcome with
    | raised msg => rfl
    | response status body =>
      unfold search_semantic_scholar
      by_cases h429 : (status == 429) = true
      · simp [h429, Except.isOk, Except.toBool]
      · by_cases h2 : is2xx status = true
        · cases body with
          | badJson m => simp [h429, h2, Except.isOk, Except.toBool]
          | data entries => simp [h429, h2, Except.isOk, Except.toBool]
        · have h2f : is2xx status = false := by
            cases hx : is2xx status
            · rfl
            · exact absurd hx h2
          simp [h429, h2f, Except.isOk, Except.toBool]

/-- Witness for C7 at statuses 429 and 500 with a concrete body. -/
theorem c7_s2_rate_limit_witness :
    search_semantic_scholar (.response 429 (.data []))
      = .ok [s2_error_record "Rate limit exceeded. Try again after later."] ∧
    search_semantic_scholar (.response 500 (.data []))
      = .ok [s2_error_record ("Failed to fetch papers from Semantic Scholar: "
          ++ httpStatusErrorMsg 500)] ∧
    s2_error_record "Rate limit exceeded. Try again after later."
      ≠ s2_error_record ("Failed to fetch papers from Semantic Scholar: "
          ++ httpStatusErrorMsg 500) ∧
    (search_semantic_scholar (.raised "connection refused")).isOk := by
  have h := c7_s2_rate_limit
  exact ⟨h.1 (.data []), h.2.1 500 (.data []) (by decide) (by decide),
    h.2.2.1 500, h.2.2.2 (.raised "connection refused")⟩

/-- C9: an Atom entry with intact id/title/summary but no `pdf`-titled link
parses to a record with an absent `pdf_url`, and no exception is raised. -/
theorem c9_missing_pdf_link (entry : AtomEntry) (idu t s : String)
    (hid : entry.idText = some idu) (ht : entry.titleText = some t)
    (hs : entry.summaryText = some s)
    (hlink : entry.links.find? (fun l => l.title == some "pdf") = none) :
    ∃ p : ArxivPaper, parse_arxiv_entry entry = .ok p ∧ p.pdf_url = none := by
  simp only [parse_arxiv_entry, hid, ht, hs, hlink, ArxivPaper.construct]
  exact ⟨_, rfl, rfl⟩

/-- Witness for C9 on a concrete entry whose only link is doi-titled. -/
theorem c9_missing_pdf_link_witness :
    ∃ p : ArxivPaper,
      parse_arxiv_entry
          { idText := some "http://arxiv.org/abs/2503.01469v1",
            titleText := some " A Title ", summaryText := some " A Summary ",
            authors := ["Ann Author"], categories := ["cs.AI"],
            links := [{ title := some "doi", href := some "https://doi.org/x" }] }
        = .ok p ∧ p.pdf_url = none :=
  c9_missing_pdf_link _ "http://arxiv.org/abs/2503.01469v1" " A Title " " A Summary "
    rfl rfl rfl rfl

end Paperpal
